import Mathlib

/-!
Verification development for the timetable-generator repository.

The Python sources (Core.py with class TimetableGenerator, Electives.py with
class ElectivesManager) are shallowly embedded below.  Days are indices into
the fixed DAYS list (Fin 6), time slots are indices into the fixed TIME_SLOTS
list (Fin 7).  The module-level mutable dictionaries of the classes become
fields of an explicit state record that every operation threads through.
Calls to random.choice are modelled by an explicit stream of natural numbers:
each call consumes one stream element k and selects element k mod length of
the list, so the whole algorithm is a pure function of its input and the
stream (the "seed").
-/

set_option maxRecDepth 8000

namespace Timetable

/-- Explicit pseudo-random source: a stream of naturals and a cursor.
Each random.choice call consumes one element. -/
structure Rng where
  stream : Nat → Nat
  idx : Nat

/-- Consume one value from the stream. -/
def Rng.next (r : Rng) : Nat × Rng :=
  (r.stream r.idx, ⟨r.stream, r.idx + 1⟩)

/-- Model of random.choice(l): select an element of l driven by the stream
(index taken modulo the length; the default d is only reached when l is empty,
where the Python original would raise). -/
def rchoice {α : Type} (d : α) (l : List α) (r : Rng) : α × Rng :=
  let kr := r.next
  (l.getD (kr.1 % l.length) d, kr.2)

/-- TIME_SLOTS from TimetableGenerator.__init__ (seven half-day intervals). -/
def TIME_SLOTS : List String :=
  ["08:00-09:15", "09:30-10:45", "11:00-12:15",
   "12:30-01:45", "02:00-03:15", "03:30-04:45", "05:00-06:15"]

/-- DAYS from TimetableGenerator.__init__, as indices Monday=0 .. Saturday=5. -/
def DAYS : List (Fin 6) := [0, 1, 2, 3, 4, 5]

/-- All seven slot indices, in the TIME_SLOTS order. -/
def SLOTS : List (Fin 7) := [0, 1, 2, 3, 4, 5, 6]

/-- LAB_COMBINATIONS from TimetableGenerator.__init__: the six adjacent slot
pairs, as index pairs. -/
def LAB_COMBINATIONS : List (List (Fin 7)) :=
  [[0, 1], [1, 2], [2, 3], [3, 4], [4, 5], [5, 6]]

/-- MAX_CLASSES_PER_DAY from TimetableGenerator.__init__. -/
def MAX_CLASSES_PER_DAY : Nat := 4

/-- The label of a slot index. -/
def slot_label (sl : Fin 7) : String := TIME_SLOTS.getD sl.val ""

/-- State of one TimetableGenerator run: the room pools set up by setup_rooms,
the per-section grids (self.timetables), the two counter families, the room
ledger (self.room_bookings) and the stats counters. -/
structure SchedState where
  theory : List String
  lab : List String
  special : String → Option (List String)
  timetables : String → Fin 7 → Fin 6 → Option String
  daily_counts : String → Fin 6 → Nat
  lecture_counts : String → String → Nat
  room_bookings : Fin 6 → Fin 7 → List String
  placed : Nat
  failed : Nat
  cohort : Nat

/-- Write one grid cell of one section (pandas .loc[slot, day] assignment). -/
def setCell (tt : String → Fin 7 → Fin 6 → Option String)
    (sec : String) (slot : Fin 7) (day : Fin 6) (v : String) :
    String → Fin 7 → Fin 6 → Option String :=
  fun s sl d => if s = sec ∧ sl = slot ∧ d = day then some v else tt s sl d

/-- _can_place_course from Core.py: lecture limit, daily limit, then emptiness
of every slot of the candidate. -/
def can_place_course (st : SchedState) (sec code : String) (day : Fin 6)
    (slots : List (Fin 7)) (max_lectures : Nat) : Bool :=
  if max_lectures ≤ st.lecture_counts sec code then false
  else if MAX_CLASSES_PER_DAY ≤ st.daily_counts sec day then false
  else slots.all (fun sl => (st.timetables sec sl day).isNone)

/-- Room-pool selection of _get_room: special-lab list if lab and registered,
else lab pool if lab, else theory pool. -/
def room_pool (st : SchedState) (code : String) (is_lab : Bool) : List String :=
  if is_lab then
    match st.special code with
    | some l => l
    | none => st.lab
  else st.theory

/-- _get_room from Core.py: pick an unbooked room of the pool and book it, or
fall back to an arbitrary pool room with the "*" conflict suffix, leaving the
ledger unchanged. -/
def get_room (st : SchedState) (r : Rng) (code : String) (is_lab : Bool)
    (day : Fin 6) (slot : Fin 7) : String × SchedState × Rng :=
  let pool := room_pool st code is_lab
  let booked := st.room_bookings day slot
  let available := pool.filter (fun rm => !(booked.contains rm))
  if available.isEmpty then
    let c := rchoice "" pool r
    (c.1 ++ "*", st, c.2)
  else
    let c := rchoice "" available r
    (c.1,
     { st with room_bookings :=
        fun d s => if d = day ∧ s = slot then c.1 :: booked else st.room_bookings d s },
     c.2)

/-- The course-info text built in _place_course (without the lab-span line). -/
def base_info (code name room : String) (lnum total : Nat) : String :=
  if 1 < total then
    code ++ " (L" ++ toString lnum ++ "/" ++ toString total ++ ")\n" ++ name ++ "\nRoom: " ++ room
  else
    code ++ "\n" ++ name ++ "\nRoom: " ++ room

/-- Model of Python str.split(sep) for a one-character separator, over the
underlying character list of the string. -/
def split_on_char (c : Char) : List Char → List (List Char)
  | [] => [[]]
  | a :: rest =>
    let r := split_on_char c rest
    if a = c then [] :: r
    else (a :: r.headD []) :: r.tail

/-- str.split of a label at a one-character separator, as a string list. -/
def str_split (s : String) (c : Char) : List String :=
  (split_on_char c s.data).map String.mk

/-- The aggregated start-end span of a multi-slot candidate, as built in
_place_course: start of the first slot label (the part before the dash), end
of the last (the part after the dash). -/
def lab_span (slots : List (Fin 7)) : String :=
  (str_split (slot_label (slots.headD 0)) '-').headD "" ++ "-" ++
    (str_split (slot_label (slots.getLastD 0)) '-').getD 1 ""

/-- The full occupant text of _place_course: the base info, plus the
"(Lab: start-end)" line when the candidate has more than one slot. -/
def course_info (code name room : String) (lnum total : Nat)
    (slots : List (Fin 7)) : String :=
  if 1 < slots.length then
    base_info code name room lnum total ++ "\n(Lab: " ++ lab_span slots ++ ")"
  else
    base_info code name room lnum total

/-- _place_course from Core.py: write the occupant into every slot of the
candidate for the chosen day, then increment the two counters once each. -/
def place_course (st : SchedState) (sec code name : String) (day : Fin 6)
    (slots : List (Fin 7)) (room : String) (lnum total : Nat) : SchedState :=
  let info := course_info code name room lnum total slots
  { st with
    timetables := slots.foldl (fun g sl => setCell g sec sl day info) st.timetables,
    daily_counts := fun s d =>
      if s = sec ∧ d = day then st.daily_counts s d + 1 else st.daily_counts s d,
    lecture_counts := fun s c =>
      if s = sec ∧ c = code then st.lecture_counts s c + 1 else st.lecture_counts s c }

/-- time_options from _place_course_lectures: the lab pairs for labs, the
seven singleton slots otherwise. -/
def time_options (is_lab : Bool) : List (List (Fin 7)) :=
  if is_lab then LAB_COMBINATIONS else SLOTS.map (fun s => [s])

/-- The commit performed by a successful attempt in _place_course_lectures:
allocate a room using the first slot of the candidate, place the course, and
count it as placed. -/
def commit_placement (st : SchedState) (r : Rng) (sec code name : String)
    (is_lab : Bool) (day : Fin 6) (slots : List (Fin 7)) (lnum total : Nat) :
    SchedState × Rng :=
  let g := get_room st r code is_lab day (slots.headD 0)
  let st2 := place_course g.2.1 sec code name day slots g.1 lnum total
  ({ st2 with placed := st2.placed + 1 }, g.2.2)

/-- The bounded attempt loop of _place_course_lectures: draw a day and a
candidate, commit on the first feasible draw, give up when the fuel (100 in
the source) is exhausted.  Returns the state, the stream, and whether the
occurrence was placed. -/
def place_attempts (sec code name : String) (is_lab : Bool) (lnum total : Nat) :
    Nat → SchedState → Rng → SchedState × Rng × Bool
  | 0, st, r => (st, r, false)
  | fuel + 1, st, r =>
    let dc := rchoice (0 : Fin 6) DAYS r
    let sc := rchoice ([] : List (Fin 7)) (time_options is_lab) dc.2
    if can_place_course st sec code dc.1 sc.1 total then
      let c := commit_placement st sc.2 sec code name is_lab dc.1 sc.1 lnum total
      (c.1, c.2, true)
    else
      place_attempts sec code name is_lab lnum total fuel st sc.2

/-- The per-lecture loop of _place_course_lectures: one 100-attempt search per
lecture index; an exhausted occurrence increments the failure tally and the
loop proceeds with the next index. -/
def place_lectures (sec code name : String) (is_lab : Bool) (total : Nat) :
    Nat → Nat → SchedState → Rng → SchedState × Rng
  | _, 0, st, r => (st, r)
  | lnum, n + 1, st, r =>
    let t := place_attempts sec code name is_lab lnum total 100 st r
    let st2 := if t.2.2 then t.1 else { t.1 with failed := t.1.failed + 1 }
    place_lectures sec code name is_lab total (lnum + 1) n st2 t.2.1

/-- _place_course_lectures from Core.py: lecture indices 1..lectures_needed. -/
def place_course_lectures (st : SchedState) (r : Rng) (sec code name : String)
    (is_lab : Bool) (total : Nat) : SchedState × Rng :=
  place_lectures sec code name is_lab total 1 total st r

/-- One course row of a Roadmap sheet together with the section names of its
batch (_schedule_single_course resolves the batch to its section list). -/
structure CourseSpec where
  code : String
  cname : String
  is_lab : Bool
  lectures_needed : Nat
  sections : List String

/-- _schedule_single_course: place the course in each of its sections. -/
def schedule_sections (code cname : String) (is_lab : Bool) (total : Nat) :
    List String → SchedState → Rng → SchedState × Rng
  | [], st, r => (st, r)
  | sec :: rest, st, r =>
    let p := place_course_lectures st r sec code cname is_lab total
    schedule_sections code cname is_lab total rest p.1 p.2

/-- schedule_core_courses: iterate _schedule_single_course over all rows. -/
def schedule_courses : List CourseSpec → SchedState → Rng → SchedState × Rng
  | [], st, r => (st, r)
  | c :: cs, st, r =>
    let p := schedule_sections c.code c.cname c.is_lab c.lectures_needed c.sections st r
    schedule_courses cs p.1 p.2

/-- One fixed cohort tuple as processed by the inner loop of
schedule_cohort_courses: a validated (section, day, slot) target plus the
fields of the occupant text. -/
structure CohortEntry where
  sec : String
  day : Fin 6
  slot : Fin 7
  code : String
  cname : String
  capacity : Nat

/-- The occupant text written for a cohort entry. -/
def cohort_info (code name : String) (capacity : Nat) : String :=
  code ++ "\n" ++ name ++ "\n(Fixed)\nCap: " ++ toString capacity

/-- One cohort placement from schedule_cohort_courses: write the occupant and
bump the daily counter when the target cell is empty, otherwise leave the
state untouched and report the conflict. -/
def cohort_step (st : SchedState) (e : CohortEntry) : SchedState × Bool :=
  if (st.timetables e.sec e.slot e.day).isNone then
    ({ st with
        timetables := setCell st.timetables e.sec e.slot e.day
          (cohort_info e.code e.cname e.capacity),
        daily_counts := fun s d =>
          if s = e.sec ∧ d = e.day then st.daily_counts s d + 1 else st.daily_counts s d },
     true)
  else
    (st, false)

/-- schedule_cohort_courses over the flattened list of fixed tuples, returning
the total number placed. -/
def seed_cohort : SchedState → List CohortEntry → SchedState × Nat
  | st, [] => (st, 0)
  | st, e :: es =>
    let p := cohort_step st e
    let q := seed_cohort p.1 es
    (q.1, if p.2 then q.2 + 1 else q.2)

/-- The run method's scheduling phases: cohort seeding first (recording the
cohort stat), then elastic placement of the core courses. -/
def run_core (st : SchedState) (entries : List CohortEntry)
    (courses : List CourseSpec) (r : Rng) : SchedState × Rng :=
  let c := seed_cohort st entries
  schedule_courses courses { c.1 with cohort := c.2 } r

/-- State of one ElectivesManager run: the room pools and the per-section
elective grids.  The elective engine keeps no daily or lecture counters and
performs no ledger-based room booking. -/
structure ElecState where
  theory : List String
  lab : List String
  egrid : String → Fin 7 → Fin 6 → Option String

/-- The fields of an electives_pool entry that scheduling consumes. -/
structure ElecData where
  ename : String
  etype : String
  credit_hours : Nat
  can_use_lab : Bool

/-- preferred_times lookup of _schedule_single_section:
ELECTIVE_TYPES[type].preferred_times, defaulting to all TIME_SLOTS for an
unknown type.  General = the last two slots, Technical = slots five and six,
Free = the last slot. -/
def preferred_times (etype : String) : List (Fin 7) :=
  if etype = "General" then [5, 6]
  else if etype = "Technical" then [4, 5]
  else if etype = "Free" then [6]
  else SLOTS

/-- _can_place_elective: only the emptiness of the target cell is checked. -/
def can_place_elective (st : ElecState) (sec : String) (day : Fin 6)
    (slot : Fin 7) : Bool :=
  (st.egrid sec slot day).isNone

/-- _get_elective_room: draw from lab plus theory pools (labs first) when the
elective can use a lab, from the theory pool otherwise; no ledger involved. -/
def get_elective_room (st : ElecState) (d : ElecData) (r : Rng) : String × Rng :=
  rchoice "" (if d.can_use_lab then st.lab ++ st.theory else st.theory) r

/-- The occupant text built in _place_elective. -/
def elective_info (code : String) (d : ElecData) (room : String)
    (lnum total : Nat) : String :=
  if 1 < total then
    code ++ " (L" ++ toString lnum ++ "/" ++ toString total ++ ")\n" ++ d.ename
      ++ "\n(Elective - " ++ d.etype ++ ")\nRoom: " ++ room
  else
    code ++ "\n" ++ d.ename ++ "\n(Elective - " ++ d.etype ++ ")\nRoom: " ++ room

/-- _place_elective: write the occupant into the single target cell. -/
def place_elective (st : ElecState) (sec code : String) (d : ElecData)
    (day : Fin 6) (slot : Fin 7) (room : String) (lnum total : Nat) : ElecState :=
  { st with egrid := setCell st.egrid sec slot day (elective_info code d room lnum total) }

/-- The bounded attempt loop of _schedule_single_section (fuel is 50 in the
source): draw a day and a preferred slot, place on the first free cell. -/
def elec_attempts (sec code : String) (d : ElecData) (ptimes : List (Fin 7))
    (lnum total : Nat) : Nat → ElecState → Rng → ElecState × Rng × Bool
  | 0, st, r => (st, r, false)
  | fuel + 1, st, r =>
    let dc := rchoice (0 : Fin 6) DAYS r
    let sc := rchoice (0 : Fin 7) ptimes dc.2
    if can_place_elective st sec dc.1 sc.1 then
      let rm := get_elective_room st d sc.2
      (place_elective st sec code d dc.1 sc.1 rm.1 lnum total, rm.2, true)
    else
      elec_attempts sec code d ptimes lnum total fuel st sc.2

/-- The per-lecture loop of _schedule_single_section: on the first lecture
index whose 50 attempts are exhausted the function returns False immediately,
keeping whatever was already placed and skipping the remaining indices. -/
def elec_lectures (sec code : String) (d : ElecData) (ptimes : List (Fin 7))
    (total : Nat) : Nat → Nat → ElecState → Rng → ElecState × Rng × Bool
  | _, 0, st, r => (st, r, true)
  | lnum, n + 1, st, r =>
    let t := elec_attempts sec code d ptimes lnum total 50 st r
    if t.2.2 then elec_lectures sec code d ptimes total (lnum + 1) n t.1 t.2.1
    else (t.1, t.2.1, false)

/-- _schedule_single_section from Electives.py: one lecture occurrence per
credit hour, over the type-specific preferred slots. -/
def schedule_single_section (st : ElecState) (r : Rng) (sec code : String)
    (d : ElecData) : ElecState × Rng × Bool :=
  elec_lectures sec code d (preferred_times d.etype) d.credit_hours 1 d.credit_hours st r

/-- The section loop of schedule_elective_sections: each section is one
independent target; the scheduled and failed tallies each grow by one per
section according to the boolean result. -/
def elec_driver : List (String × String × ElecData) → ElecState → Rng →
    ElecState × Rng × Nat × Nat
  | [], st, r => (st, r, 0, 0)
  | (sec, code, d) :: rest, st, r =>
    let t := schedule_single_section st r sec code d
    let q := elec_driver rest t.1 t.2.1
    (q.1, q.2.1,
     (if t.2.2 then q.2.2.1 + 1 else q.2.2.1),
     (if t.2.2 then q.2.2.2 else q.2.2.2 + 1))

/-! ### Concrete inputs used by witnesses and counterexamples -/

/-- A fixed stream for concrete runs: every random.choice takes element 0. -/
def demo_rng : Rng := ⟨fun _ => 0, 0⟩

/-- A fresh engine state with the given room pools (grids, counters, ledger
and stats all empty, as at engine start). -/
def empty_sched (th la : List String) : SchedState :=
  { theory := th, lab := la, special := fun _ => none,
    timetables := fun _ _ _ => none, daily_counts := fun _ _ => 0,
    lecture_counts := fun _ _ => 0, room_bookings := fun _ _ => [],
    placed := 0, failed := 0, cohort := 0 }

/-- A state whose section CS_S1_SecA already holds a fixed entry in the
Monday 08:00 cell. -/
def c1_state : SchedState :=
  { empty_sched ["T1"] ["L1"] with
    timetables := fun s sl d =>
      if s = "CS_S1_SecA" ∧ sl = 0 ∧ d = 0
      then some "MATH101\nCalculus\n(Fixed)\nCap: 50" else none }

/-- One non-lab course over the same section. -/
def c1_courses : List CourseSpec :=
  [{ code := "CS101", cname := "Intro to CS", is_lab := false,
     lectures_needed := 2, sections := ["CS_S1_SecA"] }]

/-- A cohort tuple for section Cohort_CS_S1_A on Monday at the given slot. -/
def c2_entry (sl : Fin 7) : CohortEntry :=
  { sec := "Cohort_CS_S1_A", day := 0, slot := sl, code := "CS101",
    cname := "Intro to CS", capacity := 50 }

/-- Five cohort tuples on the same Monday, five different slots. -/
def c2_entries : List CohortEntry :=
  [c2_entry 0, c2_entry 1, c2_entry 2, c2_entry 3, c2_entry 4]

/-- The number of grid cells of a section attributed to a course: cells whose
occupant text starts with the course code (every occupant text built by
place_course does). -/
def course_cells (st : SchedState) (sec code : String) : Nat :=
  (SLOTS.map (fun sl =>
    (DAYS.filter (fun dd =>
      match st.timetables sec sl dd with
      | some s => code.data.isPrefixOf s.data
      | none => false)).length)).sum

/-- An elective pool entry of type Free needing two lecture occurrences. -/
def c4_data : ElecData :=
  { ename := "Professional Ethics", etype := "Free", credit_hours := 2,
    can_use_lab := false }

/-- An elective state whose only Free preferred slot (the last slot) is
occupied on every day for the target section. -/
def c4_state : ElecState :=
  { theory := ["T1"], lab := ["L1"],
    egrid := fun s sl _ =>
      if s = "Elective_HU999_Sec1" ∧ sl = 6 then some "X" else none }

/-- A state whose cohort section already holds an entry in the Monday 08:00
cell. -/
def c7_state : SchedState :=
  { empty_sched ["T1"] ["L1"] with
    timetables := fun s sl d =>
      if s = "Cohort_CS_S1_A" ∧ sl = 0 ∧ d = 0
      then some "CS101\nIntro to CS\n(Fixed)\nCap: 50" else none }

/-- A conflicting cohort tuple aimed at the occupied cell of c7_state. -/
def c7_entry : CohortEntry :=
  { sec := "Cohort_CS_S1_A", day := 0, slot := 0, code := "SE201",
    cname := "Software Design", capacity := 40 }

/-- A state with a single lab room, as in the overbooking scenario. -/
def c9_state : SchedState := empty_sched ["T1"] ["L01"]

/-- An elective pool entry of type Free needing two lecture occurrences. -/
def c10_data : ElecData :=
  { ename := "Entrepreneurship", etype := "Free", credit_hours := 2,
    can_use_lab := false }

/-- An elective state where the only Free preferred slot is occupied on every
day except Monday for the target section: the first occurrence can be placed
on Monday, after which the second occurrence has no free cell. -/
def c10_state : ElecState :=
  { theory := ["T1"], lab := ["L1"],
    egrid := fun s sl dy =>
      if s = "Elective_AI777_Sec1" ∧ sl = 6 ∧ ¬(dy = 0) then some "X" else none }

/-! ### Pointwise evaluation and preservation lemmas -/

theorem foldl_setCell_eval (sec : String) (day : Fin 6) (v : String) :
    ∀ (slots : List (Fin 7)) (tt : String → Fin 7 → Fin 6 → Option String)
      (s : String) (sl : Fin 7) (d : Fin 6),
      (slots.foldl (fun g x => setCell g sec x day v) tt) s sl d
        = if s = sec ∧ sl ∈ slots ∧ d = day then some v else tt s sl d := by
  intro slots
  induction slots with
  | nil => intro tt s sl d; simp
  | cons a l ih =>
    intro tt s sl d
    simp only [List.foldl_cons, ih, setCell, List.mem_cons]
    by_cases h1 : s = sec <;> by_cases h2 : d = day <;>
      by_cases h3 : sl ∈ l <;> by_cases h4 : sl = a <;>
      simp [h1, h2, h3, h4]

theorem can_place_course_eq_true {st : SchedState} {sec code : String}
    {day : Fin 6} {slots : List (Fin 7)} {total : Nat}
    (h : can_place_course st sec code day slots total = true) :
    st.lecture_counts sec code < total
    ∧ st.daily_counts sec day < MAX_CLASSES_PER_DAY
    ∧ ∀ sl ∈ slots, st.timetables sec sl day = none := by
  unfold can_place_course at h
  split at h
  · simp at h
  next h1 =>
    split at h
    · simp at h
    next h2 =>
      refine ⟨Nat.lt_of_not_le h1, Nat.lt_of_not_le h2, fun sl hsl => ?_⟩
      exact Option.isNone_iff_eq_none.mp (List.all_eq_true.mp h sl hsl)

theorem get_room_timetables (st : SchedState) (r : Rng) (code : String)
    (is_lab : Bool) (day : Fin 6) (slot : Fin 7) :
    ((get_room st r code is_lab day slot).2.1).timetables = st.timetables := by
  simp only [get_room]
  split <;> rfl

theorem get_room_daily (st : SchedState) (r : Rng) (code : String)
    (is_lab : Bool) (day : Fin 6) (slot : Fin 7) :
    ((get_room st r code is_lab day slot).2.1).daily_counts = st.daily_counts := by
  simp only [get_room]
  split <;> rfl

theorem get_room_lectures (st : SchedState) (r : Rng) (code : String)
    (is_lab : Bool) (day : Fin 6) (slot : Fin 7) :
    ((get_room st r code is_lab day slot).2.1).lecture_counts = st.lecture_counts := by
  simp only [get_room]
  split <;> rfl

theorem get_room_placed (st : SchedState) (r : Rng) (code : String)
    (is_lab : Bool) (day : Fin 6) (slot : Fin 7) :
    ((get_room st r code is_lab day slot).2.1).placed = st.placed := by
  simp only [get_room]
  split <;> rfl

theorem get_room_failed (st : SchedState) (r : Rng) (code : String)
    (is_lab : Bool) (day : Fin 6) (slot : Fin 7) :
    ((get_room st r code is_lab day slot).2.1).failed = st.failed := by
  simp only [get_room]
  split <;> rfl

theorem get_room_bookings_frame (st : SchedState) (r : Rng) (code : String)
    (is_lab : Bool) (day : Fin 6) (slot : Fin 7) (d : Fin 6) (s : Fin 7)
    (h : ¬(d = day ∧ s = slot)) :
    ((get_room st r code is_lab day slot).2.1).room_bookings d s
      = st.room_bookings d s := by
  simp only [get_room]
  split
  · rfl
  · simp [h]

theorem place_course_timetables_eval (st : SchedState) (sec code name : String)
    (day : Fin 6) (slots : List (Fin 7)) (room : String) (lnum total : Nat)
    (s : String) (sl : Fin 7) (d : Fin 6) :
    (place_course st sec code name day slots room lnum total).timetables s sl d
      = if s = sec ∧ sl ∈ slots ∧ d = day
        then some (course_info code name room lnum total slots)
        else st.timetables s sl d := by
  simp only [place_course]
  exact foldl_setCell_eval sec day _ slots st.timetables s sl d

theorem place_course_daily_eval (st : SchedState) (sec code name : String)
    (day : Fin 6) (slots : List (Fin 7)) (room : String) (lnum total : Nat)
    (s : String) (d : Fin 6) :
    (place_course st sec code name day slots room lnum total).daily_counts s d
      = if s = sec ∧ d = day then st.daily_counts s d + 1 else st.daily_counts s d := rfl

theorem place_course_lectures_eval (st : SchedState) (sec code name : String)
    (day : Fin 6) (slots : List (Fin 7)) (room : String) (lnum total : Nat)
    (s c : String) :
    (place_course st sec code name day slots room lnum total).lecture_counts s c
      = if s = sec ∧ c = code then st.lecture_counts s c + 1 else st.lecture_counts s c := rfl

theorem commit_timetables_eval (st : SchedState) (r : Rng) (sec code name : String)
    (is_lab : Bool) (day : Fin 6) (slots : List (Fin 7)) (lnum total : Nat)
    (s : String) (sl : Fin 7) (d : Fin 6) :
    ((commit_placement st r sec code name is_lab day slots lnum total).1).timetables s sl d
      = if s = sec ∧ sl ∈ slots ∧ d = day
        then some (course_info code name
          (get_room st r code is_lab day (slots.headD 0)).1 lnum total slots)
        else st.timetables s sl d := by
  simp only [commit_placement]
  rw [show ∀ (x : SchedState) (p : Nat), ({ x with placed := p } : SchedState).timetables
        = x.timetables from fun _ _ => rfl]
  rw [place_course_timetables_eval, get_room_timetables]

theorem commit_daily_eval (st : SchedState) (r : Rng) (sec code name : String)
    (is_lab : Bool) (day : Fin 6) (slots : List (Fin 7)) (lnum total : Nat)
    (s : String) (d : Fin 6) :
    ((commit_placement st r sec code name is_lab day slots lnum total).1).daily_counts s d
      = if s = sec ∧ d = day then st.daily_counts s d + 1 else st.daily_counts s d := by
  simp only [commit_placement]
  rw [show ∀ (x : SchedState) (p : Nat), ({ x with placed := p } : SchedState).daily_counts
        = x.daily_counts from fun _ _ => rfl]
  rw [place_course_daily_eval, get_room_daily]

theorem commit_lectures_eval (st : SchedState) (r : Rng) (sec code name : String)
    (is_lab : Bool) (day : Fin 6) (slots : List (Fin 7)) (lnum total : Nat)
    (s c : String) :
    ((commit_placement st r sec code name is_lab day slots lnum total).1).lecture_counts s c
      = if s = sec ∧ c = code then st.lecture_counts s c + 1 else st.lecture_counts s c := by
  simp only [commit_placement]
  rw [show ∀ (x : SchedState) (p : Nat), ({ x with placed := p } : SchedState).lecture_counts
        = x.lecture_counts from fun _ _ => rfl]
  rw [place_course_lectures_eval, get_room_lectures]

theorem commit_placed_eval (st : SchedState) (r : Rng) (sec code name : String)
    (is_lab : Bool) (day : Fin 6) (slots : List (Fin 7)) (lnum total : Nat) :
    ((commit_placement st r sec code name is_lab day slots lnum total).1).placed
      = st.placed + 1 := by
  simp only [commit_placement]
  rw [show ∀ (x : SchedState) (p : Nat), ({ x with placed := p } : SchedState).placed
        = p from fun _ _ => rfl]
  rw [show ∀ (x : SchedState) (sec code name : String) (day : Fin 6)
        (slots : List (Fin 7)) (room : String) (lnum total : Nat),
        (place_course x sec code name day slots room lnum total).placed = x.placed
        from fun _ _ _ _ _ _ _ _ _ => rfl]
  rw [get_room_placed]

theorem commit_failed_eval (st : SchedState) (r : Rng) (sec code name : String)
    (is_lab : Bool) (day : Fin 6) (slots : List (Fin 7)) (lnum total : Nat) :
    ((commit_placement st r sec code name is_lab day slots lnum total).1).failed
      = st.failed := by
  simp only [commit_placement]
  rw [show ∀ (x : SchedState) (p : Nat), ({ x with placed := p } : SchedState).failed
        = x.failed from fun _ _ => rfl]
  rw [show ∀ (x : SchedState) (sec code name : String) (day : Fin 6)
        (slots : List (Fin 7)) (room : String) (lnum total : Nat),
        (place_course x sec code name day slots room lnum total).failed = x.failed
        from fun _ _ _ _ _ _ _ _ _ => rfl]
  rw [get_room_failed]

theorem place_attempts_false_eq (sec code name : String) (is_lab : Bool)
    (lnum total : Nat) : ∀ (fuel : Nat) (st : SchedState) (r : Rng),
    (place_attempts sec code name is_lab lnum total fuel st r).2.2 = false →
    (place_attempts sec code name is_lab lnum total fuel st r).1 = st := by
  intro fuel
  induction fuel with
  | zero => intro st r _; rfl
  | succ n ih =>
    intro st r
    simp only [place_attempts]
    split
    · intro h; simp at h
    · exact ih st _

theorem place_attempts_true_stats (sec code name : String) (is_lab : Bool)
    (lnum total : Nat) : ∀ (fuel : Nat) (st : SchedState) (r : Rng),
    (place_attempts sec code name is_lab lnum total fuel st r).2.2 = true →
    (place_attempts sec code name is_lab lnum total fuel st r).1.placed = st.placed + 1
    ∧ (place_attempts sec code name is_lab lnum total fuel st r).1.failed = st.failed := by
  intro fuel
  induction fuel with
  | zero => intro st r h; simp [place_attempts] at h
  | succ n ih =>
    intro st r
    simp only [place_attempts]
    split
    · intro _
      exact ⟨commit_placed_eval _ _ _ _ _ _ _ _ _ _, commit_failed_eval _ _ _ _ _ _ _ _ _ _⟩
    · exact ih st _

theorem place_attempts_preserves_occupied (sec code name : String) (is_lab : Bool)
    (lnum total : Nat) : ∀ (fuel : Nat) (st : SchedState) (r : Rng)
    (s : String) (sl : Fin 7) (d : Fin 6) (v : String),
    st.timetables s sl d = some v →
    (place_attempts sec code name is_lab lnum total fuel st r).1.timetables s sl d = some v := by
  intro fuel
  induction fuel with
  | zero => intro st r s sl d v hv; exact hv
  | succ n ih =>
    intro st r s sl d v hv
    simp only [place_attempts]
    split
    next hcan =>
      rw [commit_timetables_eval]
      split
      next hc =>
        obtain ⟨-, -, hemp⟩ := can_place_course_eq_true hcan
        rw [hc.1] at hv
        rw [hc.2.2] at hv
        rw [hemp _ hc.2.1] at hv
        exact absurd hv (by simp)
      · exact hv
    · exact ih st _ s sl d v hv

theorem place_attempts_daily_bound (sec code name : String) (is_lab : Bool)
    (lnum total : Nat) : ∀ (fuel : Nat) (st : SchedState) (r : Rng)
    (s : String) (d : Fin 6),
    st.daily_counts s d ≤ MAX_CLASSES_PER_DAY →
    (place_attempts sec code name is_lab lnum total fuel st r).1.daily_counts s d
      ≤ MAX_CLASSES_PER_DAY := by
  intro fuel
  induction fuel with
  | zero => intro st r s d h; exact h
  | succ n ih =>
    intro st r s d h
    simp only [place_attempts]
    split
    next hcan =>
      rw [commit_daily_eval]
      split
      next hc =>
        obtain ⟨-, hday, -⟩ := can_place_course_eq_true hcan
        rw [hc.1, hc.2]
        omega
      · exact h
    · exact ih st _ s d h

theorem place_attempts_lecture_bound (sec code name : String) (is_lab : Bool)
    (lnum total : Nat) : ∀ (fuel : Nat) (st : SchedState) (r : Rng),
    st.lecture_counts sec code ≤ total →
    (place_attempts sec code name is_lab lnum total fuel st r).1.lecture_counts sec code
      ≤ total := by
  intro fuel
  induction fuel with
  | zero => intro st r h; exact h
  | succ n ih =>
    intro st r h
    simp only [place_attempts]
    split
    next hcan =>
      rw [commit_lectures_eval]
      obtain ⟨hlec, -, -⟩ := can_place_course_eq_true hcan
      rw [if_pos (⟨rfl, rfl⟩ : sec = sec ∧ code = code)]
      omega
    · exact ih st _ h

theorem place_lectures_stats (sec code name : String) (is_lab : Bool) (total : Nat) :
    ∀ (n lnum : Nat) (st : SchedState) (r : Rng),
    ((place_lectures sec code name is_lab total lnum n st r).1).placed
      + ((place_lectures sec code name is_lab total lnum n st r).1).failed
      = st.placed + st.failed + n := by
  intro n
  induction n with
  | zero => intro lnum st r; rfl
  | succ m ih =>
    intro lnum st r
    simp only [place_lectures]
    cases hok : (place_attempts sec code name is_lab lnum total 100 st r).2.2 with
    | true =>
      simp only [hok, if_pos]
      rw [ih]
      obtain ⟨h1, h2⟩ := place_attempts_true_stats sec code name is_lab lnum total 100 st r hok
      rw [h1, h2]
      omega
    | false =>
      simp only [hok, if_neg, Bool.false_eq_true, not_false_eq_true]
      rw [ih]
      have h := place_attempts_false_eq sec code name is_lab lnum total 100 st r hok
      rw [h]
      simp only []
      omega

theorem place_lectures_preserves_occupied (sec code name : String) (is_lab : Bool)
    (total : Nat) : ∀ (n lnum : Nat) (st : SchedState) (r : Rng)
    (s : String) (sl : Fin 7) (d : Fin 6) (v : String),
    st.timetables s sl d = some v →
    ((place_lectures sec code name is_lab total lnum n st r).1).timetables s sl d = some v := by
  intro n
  induction n with
  | zero => intro lnum st r s sl d v hv; exact hv
  | succ m ih =>
    intro lnum st r s sl d v hv
    simp only [place_lectures]
    apply ih
    have h := place_attempts_preserves_occupied sec code name is_lab lnum total 100 st r s sl d v hv
    cases hok : (place_attempts sec code name is_lab lnum total 100 st r).2.2 with
    | true => simpa [hok] using h
    | false => simpa [hok] using h

theorem place_lectures_daily_bound (sec code name : String) (is_lab : Bool)
    (total : Nat) : ∀ (n lnum : Nat) (st : SchedState) (r : Rng)
    (s : String) (d : Fin 6),
    st.daily_counts s d ≤ MAX_CLASSES_PER_DAY →
    ((place_lectures sec code name is_lab total lnum n st r).1).daily_counts s d
      ≤ MAX_CLASSES_PER_DAY := by
  intro n
  induction n with
  | zero => intro lnum st r s d h; exact h
  | succ m ih =>
    intro lnum st r s d h
    simp only [place_lectures]
    apply ih
    have hb := place_attempts_daily_bound sec code name is_lab lnum total 100 st r s d h
    cases hok : (place_attempts sec code name is_lab lnum total 100 st r).2.2 with
    | true => simpa [hok] using hb
    | false => simpa [hok] using hb

theorem place_lectures_lecture_bound (sec code name : String) (is_lab : Bool)
    (total : Nat) : ∀ (n lnum : Nat) (st : SchedState) (r : Rng),
    st.lecture_counts sec code ≤ total →
    ((place_lectures sec code name is_lab total lnum n st r).1).lecture_counts sec code
      ≤ total := by
  intro n
  induction n with
  | zero => intro lnum st r h; exact h
  | succ m ih =>
    intro lnum st r h
    simp only [place_lectures]
    apply ih
    have hb := place_attempts_lecture_bound sec code name is_lab lnum total 100 st r h
    cases hok : (place_attempts sec code name is_lab lnum total 100 st r).2.2 with
    | true => simpa [hok] using hb
    | false => simpa [hok] using hb

theorem schedule_sections_preserves_occupied (code cname : String) (is_lab : Bool)
    (total : Nat) : ∀ (secs : List String) (st : SchedState) (r : Rng)
    (s : String) (sl : Fin 7) (d : Fin 6) (v : String),
    st.timetables s sl d = some v →
    ((schedule_sections code cname is_lab total secs st r).1).timetables s sl d = some v := by
  intro secs
  induction secs with
  | nil => intro st r s sl d v hv; exact hv
  | cons a l ih =>
    intro st r s sl d v hv
    simp only [schedule_sections]
    exact ih _ _ s sl d v
      (place_lectures_preserves_occupied a code cname is_lab total total 1 st r s sl d v hv)

theorem schedule_sections_daily_bound (code cname : String) (is_lab : Bool)
    (total : Nat) : ∀ (secs : List String) (st : SchedState) (r : Rng)
    (s : String) (d : Fin 6),
    st.daily_counts s d ≤ MAX_CLASSES_PER_DAY →
    ((schedule_sections code cname is_lab total secs st r).1).daily_counts s d
      ≤ MAX_CLASSES_PER_DAY := by
  intro secs
  induction secs with
  | nil => intro st r s d h; exact h
  | cons a l ih =>
    intro st r s d h
    simp only [schedule_sections]
    exact ih _ _ s d (place_lectures_daily_bound a code cname is_lab total total 1 st r s d h)

theorem schedule_courses_preserves_occupied :
    ∀ (courses : List CourseSpec) (st : SchedState) (r : Rng)
    (s : String) (sl : Fin 7) (d : Fin 6) (v : String),
    st.timetables s sl d = some v →
    ((schedule_courses courses st r).1).timetables s sl d = some v := by
  intro courses
  induction courses with
  | nil => intro st r s sl d v hv; exact hv
  | cons c cs ih =>
    intro st r s sl d v hv
    simp only [schedule_courses]
    exact ih _ _ s sl d v
      (schedule_sections_preserves_occupied c.code c.cname c.is_lab c.lectures_needed
        c.sections st r s sl d v hv)

theorem schedule_courses_daily_bound :
    ∀ (courses : List CourseSpec) (st : SchedState) (r : Rng)
    (s : String) (d : Fin 6),
    st.daily_counts s d ≤ MAX_CLASSES_PER_DAY →
    ((schedule_courses courses st r).1).daily_counts s d ≤ MAX_CLASSES_PER_DAY := by
  intro courses
  induction courses with
  | nil => intro st r s d h; exact h
  | cons c cs ih =>
    intro st r s d h
    simp only [schedule_courses]
    exact ih _ _ s d
      (schedule_sections_daily_bound c.code c.cname c.is_lab c.lectures_needed
        c.sections st r s d h)

theorem seed_cohort_lectures_bookings :
    ∀ (entries : List CohortEntry) (st : SchedState),
    ((seed_cohort st entries).1).lecture_counts = st.lecture_counts
    ∧ ((seed_cohort st entries).1).room_bookings = st.room_bookings := by
  intro entries
  induction entries with
  | nil => intro st; exact ⟨rfl, rfl⟩
  | cons e es ih =>
    intro st
    simp only [seed_cohort]
    have hstep : ((cohort_step st e).1).lecture_counts = st.lecture_counts
        ∧ ((cohort_step st e).1).room_bookings = st.room_bookings := by
      unfold cohort_step
      split <;> exact ⟨rfl, rfl⟩
    obtain ⟨h1, h2⟩ := ih (cohort_step st e).1
    exact ⟨h1.trans hstep.1, h2.trans hstep.2⟩

theorem elec_attempts_false_eq (sec code : String) (d : ElecData)
    (ptimes : List (Fin 7)) (lnum total : Nat) :
    ∀ (fuel : Nat) (st : ElecState) (r : Rng),
    (elec_attempts sec code d ptimes lnum total fuel st r).2.2 = false →
    (elec_attempts sec code d ptimes lnum total fuel st r).1 = st := by
  intro fuel
  induction fuel with
  | zero => intro st r _; rfl
  | succ n ih =>
    intro st r
    simp only [elec_attempts]
    split
    · intro h; simp at h
    · exact ih st _

theorem elec_attempts_preserves_occupied (sec code : String) (d : ElecData)
    (ptimes : List (Fin 7)) (lnum total : Nat) :
    ∀ (fuel : Nat) (st : ElecState) (r : Rng)
    (s : String) (sl : Fin 7) (dy : Fin 6) (v : String),
    st.egrid s sl dy = some v →
    (elec_attempts sec code d ptimes lnum total fuel st r).1.egrid s sl dy = some v := by
  intro fuel
  induction fuel with
  | zero => intro st r s sl dy v hv; exact hv
  | succ n ih =>
    intro st r s sl dy v hv
    simp only [elec_attempts]
    split
    next hcan =>
      simp only [place_elective, setCell]
      split
      next hc =>
        unfold can_place_elective at hcan
        rw [hc.1, hc.2.1, hc.2.2] at hv
        rw [Option.isNone_iff_eq_none.mp hcan] at hv
        exact absurd hv (by simp)
      · exact hv
    · exact ih st _ s sl dy v hv

theorem elec_lectures_preserves_occupied (sec code : String) (d : ElecData)
    (ptimes : List (Fin 7)) (total : Nat) :
    ∀ (n lnum : Nat) (st : ElecState) (r : Rng)
    (s : String) (sl : Fin 7) (dy : Fin 6) (v : String),
    st.egrid s sl dy = some v →
    ((elec_lectures sec code d ptimes total lnum n st r).1).egrid s sl dy = some v := by
  intro n
  induction n with
  | zero => intro lnum st r s sl dy v hv; exact hv
  | succ m ih =>
    intro lnum st r s sl dy v hv
    simp only [elec_lectures]
    have h := elec_attempts_preserves_occupied sec code d ptimes lnum total 50 st r s sl dy v hv
    split
    · exact ih _ _ _ s sl dy v h
    · exact h

theorem elec_driver_counts :
    ∀ (items : List (String × String × ElecData)) (st : ElecState) (r : Rng),
    (elec_driver items st r).2.2.1 + (elec_driver items st r).2.2.2 = items.length := by
  intro items
  induction items with
  | nil => intro st r; rfl
  | cons a rest ih =>
    intro st r
    obtain ⟨sec, code, d⟩ := a
    simp only [elec_driver, List.length_cons]
    cases hok : (schedule_single_section st r sec code d).2.2 with
    | true =>
      simp only [hok, if_pos]
      rw [show ∀ (x y : Nat), x + 1 + y = x + y + 1 from fun x y => by omega]
      rw [ih]
    | false =>
      simp only [hok, Bool.false_eq_true, if_neg, not_false_eq_true]
      rw [show ∀ (x y : Nat), x + (y + 1) = x + y + 1 from fun x y => by omega]
      rw [ih]

theorem rchoice_mem {α : Type} (d : α) (l : List α) (r : Rng) (h : l ≠ []) :
    (rchoice d l r).1 ∈ l := by
  have hl : 0 < l.length := List.length_pos.mpr h
  have hm : r.next.1 % l.length < l.length := Nat.mod_lt _ hl
  show l.getD (r.next.1 % l.length) d ∈ l
  rw [List.getD_eq_getElem l d hm]
  exact List.getElem_mem hm

theorem commit_bookings_eval (st : SchedState) (r : Rng) (sec code name : String)
    (is_lab : Bool) (day : Fin 6) (slots : List (Fin 7)) (lnum total : Nat)
    (d : Fin 6) (s : Fin 7) :
    ((commit_placement st r sec code name is_lab day slots lnum total).1).room_bookings d s
      = ((get_room st r code is_lab day (slots.headD 0)).2.1).room_bookings d s := rfl

/-! ### Claim theorems -/

/-- Claim C1: a non-empty grid cell is never overwritten by elastic
placement.  First part: the feasibility check can_place_course passes only
when every slot of the candidate is empty for the chosen day in the section's
grid, so elastic placement only commits onto empty cells.  Second part: any
occupied cell — a cohort entry or an earlier elastic commit — keeps its exact
occupant through the whole elastic scheduling pass schedule_courses. -/
theorem c1_cohort_immutability :
    (∀ (st : SchedState) (sec code : String) (day : Fin 6)
      (slots : List (Fin 7)) (total : Nat),
      can_place_course st sec code day slots total = true →
      ∀ sl ∈ slots, st.timetables sec sl day = none)
    ∧ ∀ (courses : List CourseSpec) (st : SchedState) (r : Rng)
      (s : String) (sl : Fin 7) (d : Fin 6) (v : String),
      st.timetables s sl d = some v →
      ((schedule_courses courses st r).1).timetables s sl d = some v := by
  constructor
  · intro st sec code day slots total h
    exact (can_place_course_eq_true h).2.2
  · exact schedule_courses_preserves_occupied

/-- Witness for C1: a section whose Monday 08:00 cell holds a fixed entry,
scheduled with a two-lecture course over the same section — the fixed cell
keeps its exact occupant. -/
theorem c1_cohort_immutability_witness :
    c1_state.timetables "CS_S1_SecA" 0 0 = some "MATH101\nCalculus\n(Fixed)\nCap: 50"
    ∧ ((schedule_courses c1_courses c1_state demo_rng).1).timetables "CS_S1_SecA" 0 0
        = some "MATH101\nCalculus\n(Fixed)\nCap: 50" :=
  ⟨by decide,
   c1_cohort_immutability.2 c1_courses c1_state demo_rng "CS_S1_SecA" 0 0
     "MATH101\nCalculus\n(Fixed)\nCap: 50" (by decide)⟩

/-- Claim C2 counterexample: cohort seeding performs no daily-load check, so
five cohort tuples on the same Monday drive dailyCount to five, above
MAX_CLASSES_PER_DAY = 4 — the claimed bound fails after a cohort commit. -/
theorem c2_counterexample :
    MAX_CLASSES_PER_DAY <
      ((seed_cohort (empty_sched ["T1"] ["L1"]) c2_entries).1).daily_counts
        "Cohort_CS_S1_A" 0 := by decide

/-- Claim C2 (amended): the bound dailyCount ≤ MAX_CLASSES_PER_DAY holds
after every elastic placement commit (schedule_courses preserves it for every
section and day); cohort seeding commits do not check the ceiling and can
exceed it. -/
theorem c2_daily_bound (courses : List CourseSpec) (st : SchedState) (r : Rng)
    (h : ∀ s d, st.daily_counts s d ≤ MAX_CLASSES_PER_DAY) :
    ∀ s d, ((schedule_courses courses st r).1).daily_counts s d
      ≤ MAX_CLASSES_PER_DAY :=
  fun s d => schedule_courses_daily_bound courses st r s d (h s d)

/-- Witness for C2 (amended): a fresh state scheduled with a two-lecture
course stays within the daily ceiling everywhere. -/
theorem c2_daily_bound_witness :
    (∀ s d, c1_state.daily_counts s d ≤ MAX_CLASSES_PER_DAY)
    ∧ ∀ s d, ((schedule_courses c1_courses c1_state demo_rng).1).daily_counts s d
        ≤ MAX_CLASSES_PER_DAY :=
  ⟨fun _ _ => Nat.zero_le _,
   c2_daily_bound c1_courses c1_state demo_rng (fun _ _ => Nat.zero_le _)⟩

/-- Claim C3 counterexample: a lab course with lecturesNeeded = 1 is placed
once, but the commit writes the occupant into both slots of the lab pair, so
two grid cells hold the course — more than the lecturesNeeded target. -/
theorem c3_counterexample :
    1 < course_cells
      (place_course_lectures (empty_sched ["T1"] ["L1"]) demo_rng
        "CS_S1_SecA" "CS101L" "Databases Lab" true 1).1
      "CS_S1_SecA" "CS101L" := by decide

/-- Claim C3 (amended): the per-course occurrence counter
lectureCount[section][course] never exceeds lecturesNeeded — the feasibility
check rechecks it before every commit — and every candidate drawn from
time_options has at most two slots, so the cells attributed to a course are
bounded by one per occurrence for non-lab and two per occurrence for lab
courses (2 x lecturesNeeded in the worst case), not by lecturesNeeded. -/
theorem c3_lecture_target_bound :
    (∀ (st : SchedState) (r : Rng) (sec code name : String) (is_lab : Bool)
      (total lnum n : Nat),
      st.lecture_counts sec code ≤ total →
      ((place_lectures sec code name is_lab total lnum n st r).1).lecture_counts sec code
        ≤ total)
    ∧ ∀ (b : Bool), ∀ slots ∈ time_options b, slots.length ≤ 2 := by
  constructor
  · intro st r sec code name is_lab total lnum n h
    exact place_lectures_lecture_bound sec code name is_lab total n lnum st r h
  · intro b
    cases b <;> decide

/-- Witness for C3 (amended): the lab run of the counterexample keeps its
occurrence counter at the target one. -/
theorem c3_lecture_target_bound_witness :
    (empty_sched ["T1"] ["L1"]).lecture_counts "CS_S1_SecA" "CS101L" ≤ 1
    ∧ ((place_lectures "CS_S1_SecA" "CS101L" "Databases Lab" true 1 1 1
        (empty_sched ["T1"] ["L1"]) demo_rng).1).lecture_counts "CS_S1_SecA" "CS101L" ≤ 1 :=
  ⟨by decide,
   c3_lecture_target_bound.1 (empty_sched ["T1"] ["L1"]) demo_rng
     "CS_S1_SecA" "CS101L" "Databases Lab" true 1 1 1 (by decide)⟩

/-- Claim C4 counterexample: an elective section (type Free, two credit
hours) whose single preferred slot is occupied on every day.  Under the
claim, both lecture occurrences would be abandoned independently and the
failure tally would increment once per occurrence (two in total); the code
instead aborts the section at the first failed occurrence and
schedule_elective_sections tallies a single failure for the whole section. -/
theorem c4_counterexample :
    DAYS.all (fun dd => !(can_place_elective c4_state "Elective_HU999_Sec1" dd 6)) = true
    ∧ (elec_driver [("Elective_HU999_Sec1", "HU999", c4_data)] c4_state
        demo_rng).2.2.2 = 1 := by
  constructor <;> decide

/-- Claim C4 (amended): in the core engine an exhausted occurrence is
abandoned with no change to the state (grid, counters, ledger and stats all
unchanged: the returned state is the input state), and every lecture index is
still processed — over lecturesNeeded indices the placed and failed tallies
together grow by exactly that count, so a failed occurrence aborts neither
the course nor the section.  In the elective engine an exhausted attempt
bound likewise leaves the state unchanged, but the section is aborted at the
first failed occurrence (the remaining indices are skipped and the section is
tallied as one failure; see C10). -/
theorem c4_failed_occurrence_semantics :
    (∀ (sec code name : String) (is_lab : Bool) (lnum total fuel : Nat)
      (st : SchedState) (r : Rng),
      (place_attempts sec code name is_lab lnum total fuel st r).2.2 = false →
      (place_attempts sec code name is_lab lnum total fuel st r).1 = st)
    ∧ (∀ (sec code name : String) (is_lab : Bool) (total n lnum : Nat)
      (st : SchedState) (r : Rng),
      ((place_lectures sec code name is_lab total lnum n st r).1).placed
        + ((place_lectures sec code name is_lab total lnum n st r).1).failed
        = st.placed + st.failed + n)
    ∧ (∀ (sec code : String) (d : ElecData) (ptimes : List (Fin 7))
      (lnum total fuel : Nat) (st : ElecState) (r : Rng),
      (elec_attempts sec code d ptimes lnum total fuel st r).2.2 = false →
      (elec_attempts sec code d ptimes lnum total fuel st r).1 = st) := by
  refine ⟨?_, ?_, ?_⟩
  · intro sec code name is_lab lnum total fuel st r h
    exact place_attempts_false_eq sec code name is_lab lnum total fuel st r h
  · intro sec code name is_lab total n lnum st r
    exact place_lectures_stats sec code name is_lab total n lnum st r
  · intro sec code d ptimes lnum total fuel st r h
    exact elec_attempts_false_eq sec code d ptimes lnum total fuel st r h

/-- Witness for C4 (amended): a core attempt loop with an unreachable target
(lecturesNeeded 0) fails and leaves the state unchanged; an elective attempt
on a fully blocked slot fails and leaves the state unchanged. -/
theorem c4_failed_occurrence_semantics_witness :
    ((place_attempts "CS_S1_SecA" "CS101" "Intro to CS" false 1 0 1
        (empty_sched ["T1"] ["L1"]) demo_rng).2.2 = false
      ∧ (place_attempts "CS_S1_SecA" "CS101" "Intro to CS" false 1 0 1
        (empty_sched ["T1"] ["L1"]) demo_rng).1 = empty_sched ["T1"] ["L1"])
    ∧ ((elec_attempts "Elective_HU999_Sec1" "HU999" c4_data [6] 1 2 1
        c4_state demo_rng).2.2 = false
      ∧ (elec_attempts "Elective_HU999_Sec1" "HU999" c4_data [6] 1 2 1
        c4_state demo_rng).1 = c4_state) :=
  ⟨⟨by decide,
    c4_failed_occurrence_semantics.1 "CS_S1_SecA" "CS101" "Intro to CS" false 1 0 1
      (empty_sched ["T1"] ["L1"]) demo_rng (by decide)⟩,
   ⟨by decide,
    c4_failed_occurrence_semantics.2.2 "Elective_HU999_Sec1" "HU999" c4_data [6] 1 2 1
      c4_state demo_rng (by decide)⟩⟩

/-- Claim C5: room allocation for a course, day and slot.  When some room of
the selected pool is not yet in the ledger entry, the returned room is one of
those available rooms and it is pushed onto Ledger[day][slot].  When the pool
is exhausted at that (day, slot) (and the pool is non-empty, as the pools set
up by setup_rooms always are), the result is a pool room with the fixed "*"
conflict suffix and the state — the ledger included — is returned unchanged;
the function is total, so no error is ever raised. -/
theorem c5_get_room_spec (st : SchedState) (r : Rng) (code : String)
    (is_lab : Bool) (day : Fin 6) (slot : Fin 7) :
    ((room_pool st code is_lab).filter
        (fun rm => !((st.room_bookings day slot).contains rm)) ≠ [] →
      (get_room st r code is_lab day slot).1
          ∈ (room_pool st code is_lab).filter
              (fun rm => !((st.room_bookings day slot).contains rm))
        ∧ ((get_room st r code is_lab day slot).2.1).room_bookings day slot
            = (get_room st r code is_lab day slot).1 :: st.room_bookings day slot)
    ∧ ((room_pool st code is_lab).filter
        (fun rm => !((st.room_bookings day slot).contains rm)) = [] →
      room_pool st code is_lab ≠ [] →
      (∃ rm ∈ room_pool st code is_lab,
        (get_room st r code is_lab day slot).1 = rm ++ "*")
      ∧ (get_room st r code is_lab day slot).2.1 = st) := by
  constructor
  · intro hne
    have hie : ((room_pool st code is_lab).filter
        (fun rm => !((st.room_bookings day slot).contains rm))).isEmpty = false := by
      simpa using hne
    constructor
    · simp only [get_room, hie, Bool.false_eq_true, if_false]
      exact rchoice_mem "" _ r hne
    · simp only [get_room, hie, Bool.false_eq_true, if_false]
      simp
  · intro hemp hpool
    have hie : ((room_pool st code is_lab).filter
        (fun rm => !((st.room_bookings day slot).contains rm))).isEmpty = true := by
      rw [hemp]
      rfl
    constructor
    · refine ⟨(rchoice "" (room_pool st code is_lab) r).1,
        rchoice_mem "" _ r hpool, ?_⟩
      simp only [get_room, hie, if_true]
    · simp only [get_room, hie, if_true]

/-- Witness for C5: a single lab room with an empty ledger entry — the room
is returned and booked; with the room already booked, the flagged room is
returned and the state is unchanged. -/
theorem c5_get_room_spec_witness :
    ((room_pool c9_state "CS101L" true).filter
        (fun rm => !((c9_state.room_bookings 0 0).contains rm)) ≠ [])
    ∧ (get_room c9_state demo_rng "CS101L" true 0 0).1
        ∈ (room_pool c9_state "CS101L" true).filter
            (fun rm => !((c9_state.room_bookings 0 0).contains rm)) :=
  ⟨by decide,
   ((c5_get_room_spec c9_state demo_rng "CS101L" true 0 0).1 (by decide)).1⟩

/-- Claim C6: a commit writes the occupant into every slot of the candidate
(both slots of a lab pair receive the same occupant record), whose text for a
multi-slot candidate carries the aggregated start-end span line; the daily
counter of the section and day grows by exactly one (once per occurrence, not
per slot) and the lecture counter of the section and course grows by exactly
one. -/
theorem c6_commit_effects (st : SchedState) (sec code name : String)
    (day : Fin 6) (slots : List (Fin 7)) (room : String) (lnum total : Nat) :
    (∀ sl ∈ slots,
      (place_course st sec code name day slots room lnum total).timetables sec sl day
        = some (course_info code name room lnum total slots))
    ∧ (place_course st sec code name day slots room lnum total).daily_counts sec day
        = st.daily_counts sec day + 1
    ∧ (place_course st sec code name day slots room lnum total).lecture_counts sec code
        = st.lecture_counts sec code + 1
    ∧ (1 < slots.length →
        course_info code name room lnum total slots
          = base_info code name room lnum total ++ "\n(Lab: " ++ lab_span slots ++ ")") := by
  refine ⟨fun sl hsl => ?_, ?_, ?_, fun h => ?_⟩
  · rw [place_course_timetables_eval, if_pos ⟨rfl, hsl, rfl⟩]
  · rw [place_course_daily_eval, if_pos ⟨rfl, rfl⟩]
  · rw [place_course_lectures_eval, if_pos ⟨rfl, rfl⟩]
  · unfold course_info
    rw [if_pos h]

/-- Witness for C6: a lab pair on Monday — the first slot of the pair holds
the shared occupant record, and the record carries the span line. -/
theorem c6_commit_effects_witness :
    ((0 : Fin 7) ∈ ([0, 1] : List (Fin 7)))
    ∧ (place_course (empty_sched ["T1"] ["L1"]) "CS_S1_SecA" "CS101L" "Databases Lab"
        0 [0, 1] "L1" 1 2).timetables "CS_S1_SecA" 0 0
        = some (course_info "CS101L" "Databases Lab" "L1" 1 2 [0, 1])
    ∧ (1 < ([0, 1] : List (Fin 7)).length)
    ∧ course_info "CS101L" "Databases Lab" "L1" 1 2 [0, 1]
        = base_info "CS101L" "Databases Lab" "L1" 1 2 ++ "\n(Lab: "
            ++ lab_span [0, 1] ++ ")" :=
  ⟨by decide,
   (c6_commit_effects (empty_sched ["T1"] ["L1"]) "CS_S1_SecA" "CS101L" "Databases Lab"
      0 [0, 1] "L1" 1 2).1 0 (by decide),
   by decide,
   (c6_commit_effects (empty_sched ["T1"] ["L1"]) "CS_S1_SecA" "CS101L" "Databases Lab"
      0 [0, 1] "L1" 1 2).2.2.2 (by decide)⟩

/-- Claim C7: a cohort tuple whose target cell is occupied is rejected — the
whole state (original occupant included) is returned unchanged and the tuple
reports failure without raising; a rejected tuple is a no-op for the rest of
the seeding pass, which continues over the remaining tuples; and cohort
seeding never touches the lecture counters or the room ledger, for successful
and rejected tuples alike. -/
theorem c7_cohort_conflict (st : SchedState) (e : CohortEntry)
    (entries : List CohortEntry) :
    ((st.timetables e.sec e.slot e.day).isSome = true →
      cohort_step st e = (st, false))
    ∧ ((cohort_step st e).2 = false →
      seed_cohort st (e :: entries) = seed_cohort st entries)
    ∧ (seed_cohort st entries).1.lecture_counts = st.lecture_counts
    ∧ (seed_cohort st entries).1.room_bookings = st.room_bookings := by
  refine ⟨fun h => ?_, fun h => ?_, (seed_cohort_lectures_bookings entries st).1,
    (seed_cohort_lectures_bookings entries st).2⟩
  · cases hcell : st.timetables e.sec e.slot e.day with
    | none => rw [hcell] at h; simp at h
    | some v =>
      unfold cohort_step
      rw [hcell]
      rfl
  · have hstep : cohort_step st e = (st, false) := by
      unfold cohort_step at h ⊢
      split at h
      · simp at h
      next hc => rw [if_neg hc]
    simp [seed_cohort, hstep]

/-- Witness for C7: the conflicting tuple aimed at the occupied Monday 08:00
cell of c7_state is rejected with the state unchanged. -/
theorem c7_cohort_conflict_witness :
    (c7_state.timetables c7_entry.sec c7_entry.slot c7_entry.day).isSome = true
    ∧ cohort_step c7_state c7_entry = (c7_state, false) :=
  ⟨by decide, (c7_cohort_conflict c7_state c7_entry []).1 (by decide)⟩

/-- Claim C8: the scheduling run is a deterministic function of its input and
the random stream — two runs on equal initial states, cohort tuples, course
lists and streams produce identical grids and identical placed, failed and
cohort statistics.  In this embedding the only source of randomness is the
explicit stream, which models the module-level random generator under a
fixed seed. -/
theorem c8_deterministic_rerun (st1 st2 : SchedState)
    (es1 es2 : List CohortEntry) (cs1 cs2 : List CourseSpec) (r1 r2 : Rng)
    (hst : st1 = st2) (hes : es1 = es2) (hcs : cs1 = cs2) (hr : r1 = r2) :
    (run_core st1 es1 cs1 r1).1.timetables = (run_core st2 es2 cs2 r2).1.timetables
    ∧ (run_core st1 es1 cs1 r1).1.placed = (run_core st2 es2 cs2 r2).1.placed
    ∧ (run_core st1 es1 cs1 r1).1.failed = (run_core st2 es2 cs2 r2).1.failed
    ∧ (run_core st1 es1 cs1 r1).1.cohort = (run_core st2 es2 cs2 r2).1.cohort := by
  subst hst
  subst hes
  subst hcs
  subst hr
  exact ⟨rfl, rfl, rfl, rfl⟩

/-- Witness for C8: two runs of the same concrete input and stream agree. -/
theorem c8_deterministic_rerun_witness :
    (run_core c1_state [c2_entry 0] c1_courses demo_rng).1.timetables
      = (run_core c1_state [c2_entry 0] c1_courses demo_rng).1.timetables
    ∧ (run_core c1_state [c2_entry 0] c1_courses demo_rng).1.placed
      = (run_core c1_state [c2_entry 0] c1_courses demo_rng).1.placed :=
  ⟨(c8_deterministic_rerun c1_state c1_state [c2_entry 0] [c2_entry 0]
      c1_courses c1_courses demo_rng demo_rng rfl rfl rfl rfl).1,
   (c8_deterministic_rerun c1_state c1_state [c2_entry 0] [c2_entry 0]
      c1_courses c1_courses demo_rng demo_rng rfl rfl rfl rfl).2.1⟩

/-- Claim C9: room allocation touches the ledger only at its (day, slot)
argument, and a commit calls it with the first slot of the candidate, so for
a committed lab pair the ledger entry of (day, second slot) is unchanged.
Concretely, with a single lab room: after committing a lab pair on Monday
slots one and two, the room is booked at the first slot, and a later
allocation at (Monday, second slot) returns the very same room without the
"*" conflict suffix. -/
theorem c9_ledger_first_slot_only :
    (∀ (st : SchedState) (r : Rng) (code : String) (is_lab : Bool)
      (day : Fin 6) (slot : Fin 7) (d : Fin 6) (s : Fin 7),
      ¬(d = day ∧ s = slot) →
      ((get_room st r code is_lab day slot).2.1).room_bookings d s
        = st.room_bookings d s)
    ∧ (∀ (st : SchedState) (r : Rng) (sec code name : String) (is_lab : Bool)
      (day : Fin 6) (slots : List (Fin 7)) (lnum total : Nat)
      (d : Fin 6) (s : Fin 7),
      ¬(d = day ∧ s = slots.headD 0) →
      ((commit_placement st r sec code name is_lab day slots lnum total).1).room_bookings d s
        = st.room_bookings d s)
    ∧ ((commit_placement c9_state demo_rng "CS_S1_SecA" "CS101L" "Databases Lab"
        true 0 [0, 1] 1 1).1).room_bookings 0 0 = ["L01"]
    ∧ (get_room ((commit_placement c9_state demo_rng "CS_S1_SecA" "CS101L" "Databases Lab"
        true 0 [0, 1] 1 1).1) demo_rng "CS101L" true 0 1).1 = "L01" := by
  refine ⟨?_, ?_, by decide, by decide⟩
  · intro st r code is_lab day slot d s h
    exact get_room_bookings_frame st r code is_lab day slot d s h
  · intro st r sec code name is_lab day slots lnum total d s h
    rw [commit_bookings_eval]
    exact get_room_bookings_frame st r code is_lab day (slots.headD 0) d s h

/-- Witness for C9: allocating at (Monday, slot one) leaves the ledger entry
of (Monday, slot two) unchanged. -/
theorem c9_ledger_first_slot_only_witness :
    ¬((0 : Fin 6) = 0 ∧ (1 : Fin 7) = 0)
    ∧ ((get_room c9_state demo_rng "CS101L" true 0 0).2.1).room_bookings 0 1
        = c9_state.room_bookings 0 1 :=
  ⟨by decide,
   c9_ledger_first_slot_only.1 c9_state demo_rng "CS101L" true 0 0 0 1 (by decide)⟩

/-- Claim C10: elective section scheduling is not atomic.  Already occupied
cells of any elective grid are never removed or changed by a section run (no
rollback), the driver tallies exactly one outcome — scheduled or failed — per
section (so a failed section counts once, not once per abandoned occurrence),
and concretely: a Free-type section needing two occurrences whose preferred
slot is free only on Monday places its first lecture, exhausts the 50-attempt
bound on the second, returns failure for the whole section, and the first
lecture's cell stays occupied while the driver records one failure. -/
theorem c10_elective_section_abort :
    (∀ (sec code : String) (d : ElecData) (ptimes : List (Fin 7))
      (total n lnum : Nat) (st : ElecState) (r : Rng)
      (s : String) (sl : Fin 7) (dy : Fin 6) (v : String),
      st.egrid s sl dy = some v →
      ((elec_lectures sec code d ptimes total lnum n st r).1).egrid s sl dy = some v)
    ∧ (∀ (items : List (String × String × ElecData)) (st : ElecState) (r : Rng),
      (elec_driver items st r).2.2.1 + (elec_driver items st r).2.2.2 = items.length)
    ∧ (schedule_single_section c10_state demo_rng "Elective_AI777_Sec1" "AI777"
        c10_data).2.2 = false
    ∧ (((schedule_single_section c10_state demo_rng "Elective_AI777_Sec1" "AI777"
        c10_data).1).egrid "Elective_AI777_Sec1" 6 0).isSome = true
    ∧ (elec_driver [("Elective_AI777_Sec1", "AI777", c10_data)] c10_state
        demo_rng).2.2.2 = 1 := by
  refine ⟨?_, elec_driver_counts, by decide, by decide, by decide⟩
  · intro sec code d ptimes total n lnum st r s sl dy v hv
    exact elec_lectures_preserves_occupied sec code d ptimes total n lnum st r s sl dy v hv

/-- Witness for C10: an occupied elective cell survives a section run. -/
theorem c10_elective_section_abort_witness :
    c4_state.egrid "Elective_HU999_Sec1" 6 1 = some "X"
    ∧ ((elec_lectures "Elective_HU999_Sec1" "HU999" c4_data [6] 2 1 2 c4_state
        demo_rng).1).egrid "Elective_HU999_Sec1" 6 1 = some "X" :=
  ⟨by decide,
   c10_elective_section_abort.1 "Elective_HU999_Sec1" "HU999" c4_data [6] 2 2 1
     c4_state demo_rng "Elective_HU999_Sec1" 6 1 "X" (by decide)⟩

end Timetable
